import Mathlib

/-!
Verification of the InfluxDB Twisted client (`modules/client.py`).

Shallow embedding notes.

* The HTTP transport (`treq.request`) is an external collaborator.  We model it
  as a function `transport : Nat → Attempt` giving, for each retry index, either
  a transport-level failure (the Python `except:` branch fires) or a delivered
  `Response` carrying a status code and an already-decoded JSON body.  URL
  construction, query parameters, basic auth and headers are passed through to
  the transport verbatim by the source and do not influence the dispatcher
  logic the claims are about, so they are carried only where a claim needs them.
* Twisted deferreds / `inlineCallbacks` sequencing is modelled by ordinary
  sequential evaluation: each `yield` point either produces a value or the
  whole call fails, which is exactly the semantics of `inlineCallbacks`.
* Python `dict` mutation on the shared `self._headers` object (aliasing in
  `write`, lines 159-160 of `client.py`) is modelled by explicit state passing:
  operations that can mutate the facade return the resulting `Client` value.
* Machine integers do not overflow in any of the claims, so `Nat`/`Int` are
  used directly.
-/

namespace InfluxDB

/-- A decoded JSON value; used for response bodies and query results. -/
inductive JsonVal where
  | null : JsonVal
  | bool : Bool → JsonVal
  | num : Int → JsonVal
  | str : String → JsonVal
  | arr : List JsonVal → JsonVal
  | obj : List (String × JsonVal) → JsonVal

/-- An HTTP response as seen by the dispatcher: its status code and its body,
already decoded as JSON (`response.json()` in the source). -/
structure Response where
  code : Nat
  body : JsonVal

/-- Outcome of one transport attempt: `failure` is a transport-level exception
(connection refused, timeout, DNS failure — the `except:` branch of
`client.py` lines 123-125); `success` is a delivered HTTP response. -/
inductive Attempt where
  | failure : Attempt
  | success : Response → Attempt

/-- The configuration dictionary handed to `InfluxDBClient.__init__`
(`client.py` line 35).  `none` models an absent key. -/
structure Config where
  host : Option String := none
  port : Option Int := none
  username : Option String := none
  password : Option String := none
  database : Option String := none
  timeout : Option Int := none
  retries : Option Int := none
  verify_ssl : Option Bool := none
  use_udp : Option Bool := none
  udp_port : Option Int := none
  ssl : Option Bool := none
  proxies : Option (List (String × String)) := none

/-- The client facade state after `__init__` (`client.py` lines 35-73).
Headers are an ordered association list, mirroring a Python dict whose keys
keep insertion order. -/
structure Client where
  host : String
  port : Int
  username : String
  password : String
  database : Option String
  timeout : Option Int
  retries : Int
  verify_ssl : Bool
  use_udp : Bool
  udp_port : Int
  scheme : String
  proxies : List (String × String)
  baseurl : String
  headers : List (String × String)
deriving DecidableEq

/-- Lines 42-45 of `client.py`: the retry count defaults to 3 when the key is
absent and is floored at 1. -/
def effectiveRetries (configured : Option Int) : Int :=
  let r := configured.getD 3
  if r < 1 then 1 else r

/-- `InfluxDBClient.__init__` (`client.py` lines 35-73). -/
def Client.init (config : Config) : Client :=
  let ssl := config.ssl.getD false
  let scheme := if ssl then "https" else "http"
  let host := config.host.getD "localhost"
  let port := config.port.getD 8086
  { host := host
    port := port
    username := config.username.getD "root"
    password := config.password.getD "root"
    database := config.database
    timeout := config.timeout
    retries := effectiveRetries config.retries
    verify_ssl := config.verify_ssl.getD false
    use_udp := config.use_udp.getD false
    udp_port := config.udp_port.getD 4444
    scheme := scheme
    proxies := config.proxies.getD []
    baseurl := scheme ++ "://" ++ host ++ ":" ++ toString port
    headers := [("Content-type", "application/json"), ("Accept", "text/plain")] }

/-- The retry loop of `request` (`client.py` lines 111-125):
`for _try in range(0, self._retries)`, attempting the transport each time,
breaking on the first delivered response, and leaving `response = None` when
every attempt raised.  Returns the final value of `response` together with the
number of transport attempts actually made. -/
def runAttempts (transport : Nat → Attempt) : Nat → Nat → Option Response × Nat
  | _, 0 => (none, 0)
  | idx, n + 1 =>
    match transport idx with
    | Attempt.success r => (some r, 1)
    | Attempt.failure =>
      let rest := runAttempts transport (idx + 1) n
      (rest.1, rest.2 + 1)

/-- The status classification of `request` (`client.py` lines 127-139): a
status in [500,600) or any status different from `expected_response_code` is
logged and turned into `None`; only an exact match is returned to the caller.
The `yield response.json()` on the error paths is diagnostic printing only. -/
def classifyResponse (expected : Nat) : Option Response → Option Response
  | none => none
  | some r =>
    if 500 ≤ r.code ∧ r.code < 600 then none
    else if r.code = expected then some r
    else none

/-- `InfluxDBClient.request` (`client.py` lines 75-139): run the retry loop,
then classify the outcome.  Returns the value handed to `returnValue` and the
number of transport attempts made. -/
def Client.request (c : Client) (transport : Nat → Attempt)
    (expected : Nat) : Option Response × Nat :=
  let looped := runAttempts transport 0 c.retries.toNat
  (classifyResponse expected looped.1, looped.2)

theorem runAttempts_zero (t : Nat → Attempt) (idx : Nat) :
    runAttempts t idx 0 = (none, 0) := rfl

theorem runAttempts_success (t : Nat → Attempt) (idx n : Nat) (r : Response)
    (h : t idx = Attempt.success r) :
    runAttempts t idx (n + 1) = (some r, 1) := by
  simp [runAttempts, h]

theorem runAttempts_failure (t : Nat → Attempt) (idx n : Nat)
    (h : t idx = Attempt.failure) :
    runAttempts t idx (n + 1) =
      ((runAttempts t (idx + 1) n).1, (runAttempts t (idx + 1) n).2 + 1) := by
  simp [runAttempts, h]

theorem runAttempts_allFail (t : Nat → Attempt)
    (h : ∀ i, t i = Attempt.failure) :
    ∀ n idx, runAttempts t idx n = (none, n) := by
  intro n
  induction n with
  | zero => intro idx; rfl
  | succ n ih =>
    intro idx
    rw [runAttempts_failure t idx n (h idx), ih (idx + 1)]

/-- Assignment `d[k] = v` on a Python dict modelled as an ordered association
list: replace the value of an existing key in place, else append. -/
def dictSet : List (String × String) → String → String → List (String × String)
  | [], k, v => [(k, v)]
  | (k0, v0) :: rest, k, v =>
    if k0 = k then (k0, v) :: rest else (k0, v0) :: dictSet rest k v

/-- Lookup `d.get(k)` on a Python dict modelled as an association list. -/
def dictGet : List (String × String) → String → Option String
  | [], _ => none
  | (k0, v0) :: rest, k => if k0 = k then some v0 else dictGet rest k

/-- `InfluxDBClient.write` (`client.py` lines 141-178).  The source first
binds `headers = self._headers` — an alias, not a copy — and then assigns
`headers[Content-type] = application/octet-stream`, which mutates the facade
state; the mutated client is the first component of the result.  For
`protocol = json` the body is produced by `make_lines` from the repository
module `utils`, which is not among the provided sources; no claim depends on
the encoded body and the transport ignores it, so the body is modelled on the
`protocol = line` branch (line 170): the given lines joined by newlines.
After dispatching, the source unconditionally executes `returnValue(True)`
(line 178), whatever `request` produced.  Result components: mutated client,
returned boolean, dispatcher outcome, transport attempts made. -/
def Client.write (c : Client) (transport : Nat → Attempt) (data : List String)
    (params : List (String × Option String)) (expected : Nat) :
    Client × Bool × Option Response × Nat :=
  let c2 := { c with headers := dictSet c.headers "Content-type" "application/octet-stream" }
  let _body := String.intercalate "\n" data ++ "\n"
  let _params := params
  let res := Client.request c2 transport expected
  (c2, true, res.1, res.2)

/-- The precision whitelist of `_write_points` (`client.py` line 247). -/
def valid_precisions : List (Option String) :=
  [some "n", some "u", some "ms", some "s", some "m", some "h", none]

/-- The `ValueError` message of `client.py` lines 248-249 (the quotation marks
around the unit names in the source string are omitted here). -/
def invalidPrecisionMsg : String :=
  "Invalid time precision is given. (use n, u, ms, s, m or h)"

/-- The `ValueError` message of `client.py` line 252. -/
def udpPrecisionMsg : String :=
  "InfluxDB only supports seconds precision for udp writes"

/-- Python `a or b` on optional strings (used for `database or self._database`
at `client.py` line 265): the left value unless it is `None` or empty. -/
def pyOr (a b : Option String) : Option String :=
  match a with
  | some s => if s = "" then b else some s
  | none => b

/-- `InfluxDBClient._write_points` (`client.py` lines 239-282): validate the
time precision, validate the UDP constraint, build the query parameters and
dispatch through `write` with expected status 204.  (The UDP send branch,
line 275, is dead in the provided configuration surface and its `send_packet`
method does not exist in the source; it is not modelled — the claims about
this operation concern the validation and the HTTP branch.)
Result components: resulting client state, `ValueError`-or-result, transport
attempts made (0 when validation fails before any dispatch). -/
def Client.writePointsChecked (c : Client) (transport : Nat → Attempt)
    (points : List String) (time_precision : Option String)
    (database : Option String) (retention_policy : Option String) :
    Client × Except String Bool × Nat :=
  if time_precision ∉ valid_precisions then
    (c, Except.error invalidPrecisionMsg, 0)
  else if c.use_udp ∧ time_precision ≠ none ∧ time_precision ≠ some "s" then
    (c, Except.error udpPrecisionMsg, 0)
  else
    let params := [("db", pyOr database c.database)]
    let params := match time_precision with
      | some p => params ++ [("precision", some p)]
      | none => params
    let params := match retention_policy with
      | some rp => params ++ [("rp", some rp)]
      | none => params
    let res := Client.write c transport points params 204
    (res.1, Except.ok true, res.2.2.2)

/-- The `NameError` raised at `client.py` line 222: the batched branch of
`write_points` iterates `xrange(0, len(iterable), size)` where `iterable`
(and `size`) are names that are defined nowhere, so Python raises before the
precision validation of `_write_points` is ever reached. -/
def nameErrorMsg : String := "NameError: name iterable is not defined"

/-- `InfluxDBClient.write_points` (`client.py` lines 180-237).  The guard at
line 220 is `if batch_size and batch_size > 0:` — taken exactly when
`batch_size` is present and positive.  That batched branch raises `NameError`
at line 222 (undefined names `iterable` and `size`) before anything else
happens: no validation runs, no request is dispatched, no state changes.
Every other call (absent, zero or negative `batch_size`) forwards to
`_write_points`. -/
def Client.write_points (c : Client) (transport : Nat → Attempt)
    (points : List String) (time_precision : Option String)
    (database : Option String) (retention_policy : Option String)
    (batch_size : Option Int) : Client × Except String Bool × Nat :=
  match batch_size with
  | some b =>
    if 0 < b then (c, Except.error nameErrorMsg, 0)
    else Client.writePointsChecked c transport points time_precision database retention_policy
  | none => Client.writePointsChecked c transport points time_precision database retention_policy

/-- Escape every internal double quote of an identifier with a backslash. -/
def escapeQuoteChars : List Char → List Char
  | [] => []
  | ch :: rest =>
    if ch = '"' then '\\' :: '"' :: escapeQuoteChars rest
    else ch :: escapeQuoteChars rest

/-- Modelled from the spec: `quote_ident` is imported from the repository
module `utils` (`client.py` line 30), which is not among the provided
sources.  Per the spec, a user-supplied name embedded into a statement is
wrapped in double quotes with internal double quotes escaped. -/
def quote_ident (name : String) : String :=
  "\"" ++ String.mk (escapeQuoteChars name.data) ++ "\""

/-- The management statement built by `create_database`
(`client.py` line 290). -/
def create_database_statement (dbname : String) : String :=
  "CREATE DATABASE " ++ quote_ident dbname

/-- The management statement built by `create_retention_policy`
(`client.py` lines 322-329).  `database or self._database` may be `None` in
Python, in which case `quote_ident` receives `None`; the claims only exercise
present names, modelled here by quoting the empty string in that case. -/
def create_retention_policy_statement (c : Client) (name duration replication : String)
    (database : Option String) (default : Bool) : String :=
  let query_string :=
    "CREATE RETENTION POLICY " ++ quote_ident name ++ " ON "
      ++ quote_ident ((pyOr database c.database).getD "")
      ++ " DURATION " ++ duration ++ " REPLICATION " ++ replication
  if default then query_string ++ " DEFAULT" else query_string

/-- Field lookup on a decoded JSON object. -/
def lookupField : List (String × JsonVal) → String → Option JsonVal
  | [], _ => none
  | (k, v) :: rest, key => if k = key then some v else lookupField rest key

/-- `data.get(results, [])` followed by iteration (`client.py` line 415):
the `results` array of the decoded body, empty when absent.  (A present
non-array value would raise `TypeError` on iteration in Python; no claim
exercises that shape.) -/
def getResults (data : JsonVal) : List JsonVal :=
  match data with
  | JsonVal.obj fields =>
    match lookupField fields "results" with
    | some (JsonVal.arr xs) => xs
    | _ => []
  | _ => []

/-- `InfluxDBClient.rawQuery` (`client.py` lines 333-398): build the query
parameters, dispatch through `request`, and return the decoded body — or the
substitute object with an empty `results` array when `request` produced
`None` (lines 393-396). -/
def Client.rawQuery (c : Client) (transport : Nat → Attempt) (query : String)
    (database : Option String) (epoch : Option String) (expected : Nat) : JsonVal :=
  let params := [("q", some query), ("db", pyOr database c.database)]
  let _params := match epoch with
    | some e => params ++ [("epoch", some e)]
    | none => params
  match (Client.request c transport expected).1 with
  | some r => r.body
  | none => JsonVal.obj [("results", JsonVal.arr [])]

/-- The `error` field of one statement entry, when present as a string. -/
def getErrorField (entry : JsonVal) : Option String :=
  match entry with
  | JsonVal.obj fields =>
    match lookupField fields "error" with
    | some (JsonVal.str e) => some e
    | _ => none
  | _ => none

/-- The `series` array of one statement entry, empty when absent. -/
def getSeriesField (entry : JsonVal) : List JsonVal :=
  match entry with
  | JsonVal.obj fields =>
    match lookupField fields "series" with
    | some (JsonVal.arr xs) => xs
    | _ => []
  | _ => []

/-- Modelled from the spec: `ResultSet` is imported from the repository
module `resultset` (`client.py` line 31), which is not among the provided
sources.  Per the spec it records the ordered `series` array and the optional
per-statement `error` of one entry of the `results` array. -/
structure ResultSet where
  series : List JsonVal
  error : Option String

/-- Modelled from the spec: constructing a `ResultSet` from one statement
entry.  When `raise_errors` is true and the entry carries an `error` field,
construction fails with that statement error; otherwise the error, when any,
is recorded on the `ResultSet` for the caller to inspect. -/
def mkResultSet (entry : JsonVal) (raise_errors : Bool) : Except String ResultSet :=
  if raise_errors then
    match getErrorField entry with
    | some e => Except.error e
    | none => Except.ok { series := getSeriesField entry, error := none }
  else
    Except.ok { series := getSeriesField entry, error := getErrorField entry }

/-- `InfluxDBClient.parsedQuery` (`client.py` lines 400-417): `rawQuery`, then
one `ResultSet` per entry of the `results` array. -/
def Client.parsedQuery (c : Client) (transport : Nat → Attempt) (query : String)
    (database : Option String) (epoch : Option String) (expected : Nat)
    (raise_errors : Bool) : Except String (List ResultSet) :=
  let data := Client.rawQuery c transport query database epoch expected
  (getResults data).mapM (fun entry => mkResultSet entry raise_errors)

/-- Helper: a client built by `__init__` has at least one retry, so the loop
makes at least one attempt; when the first transport attempt delivers a
response, `request` returns its classification after exactly one attempt. -/
theorem request_first_delivered (c : Client) (t : Nat → Attempt) (r : Response)
    (expected : Nat) (h0 : t 0 = Attempt.success r) (hr : 1 ≤ c.retries) :
    Client.request c t expected = (classifyResponse expected (some r), 1) := by
  obtain ⟨n, hn⟩ : ∃ n, c.retries.toNat = n + 1 := ⟨c.retries.toNat - 1, by omega⟩
  simp [Client.request, hn, runAttempts_success t 0 n r h0]

/-- Helper: when every transport attempt fails, `request` returns `None`
after making `retries` attempts. -/
theorem request_allFail (c : Client) (t : Nat → Attempt) (expected : Nat)
    (h : ∀ i, t i = Attempt.failure) :
    Client.request c t expected = (none, c.retries.toNat) := by
  simp [Client.request, runAttempts_allFail t h, classifyResponse]

/-- C1: for every HTTP response with status code in [500,600), `request`
hands the caller no usable response — the dispatch outcome is `None`.
The source, however, raises no `ServerError` (it prints the decoded error
body and falls through to `returnValue(None)`, `client.py` lines 128-131 and
139), contradicting its own docstring (lines 95-96), which promises
`InfluxDBServerError` for every 5xx status. -/
theorem request_5xx_returns_none (c : Client) (t : Nat → Attempt)
    (expected : Nat) (body : JsonVal) (code : Nat)
    (h5 : 500 ≤ code) (h6 : code < 600)
    (h0 : t 0 = Attempt.success ⟨code, body⟩) (hr : 1 ≤ c.retries) :
    (Client.request c t expected).1 = none := by
  rw [request_first_delivered c t ⟨code, body⟩ expected h0 hr]
  simp [classifyResponse, h5, h6]

/-- Witness for C1 at a concrete 503 response. -/
theorem request_5xx_returns_none_witness :
    ((Client.init {}).request (fun _ => Attempt.success ⟨503, JsonVal.null⟩) 200).1 = none :=
  request_5xx_returns_none (Client.init {})
    (fun _ => Attempt.success ⟨503, JsonVal.null⟩) 200 JsonVal.null 503
    (by decide) (by decide) rfl (by decide)

/-- C2 counterexample: with every transport attempt failing (all retries
exhausted without a transport-level response), `request` returns `None`
rather than failing with `ConnectionError`, and `parsedQuery` converts that
failure into the successful empty result list — a query yields an empty
result set in place of a failure. -/
theorem exhausted_retries_counterexample :
    ((Client.init {}).request (fun _ => Attempt.failure) 200).1 = none
    ∧ (Client.init {}).parsedQuery (fun _ => Attempt.failure)
        "SELECT * FROM test1" none none 200 true = Except.ok [] :=
  ⟨rfl, rfl⟩

/-- C2 (amended): when all retry attempts exhaust without a transport-level
response, `request` returns `None` to the caller (no `ConnectionError` is
raised), `rawQuery` substitutes the empty-results object for the missing
body (`client.py` lines 393-396), and `parsedQuery` therefore returns the
empty `ResultSet` sequence in place of the failure. -/
theorem exhausted_retries_behavior (c : Client) (t : Nat → Attempt)
    (q : String) (db ep : Option String) (expected : Nat) (re : Bool)
    (h : ∀ i, t i = Attempt.failure) :
    (Client.request c t expected).1 = none
    ∧ Client.rawQuery c t q db ep expected = JsonVal.obj [("results", JsonVal.arr [])]
    ∧ Client.parsedQuery c t q db ep expected re = Except.ok [] := by
  have hreq : Client.request c t expected = (none, c.retries.toNat) :=
    request_allFail c t expected h
  have hraw : Client.rawQuery c t q db ep expected
      = JsonVal.obj [("results", JsonVal.arr [])] := by
    simp [Client.rawQuery, hreq]
  refine ⟨by rw [hreq], hraw, ?_⟩
  simp [Client.parsedQuery, hraw]
  rfl

/-- Witness for C2 (amended) with an always-failing transport. -/
theorem exhausted_retries_behavior_witness :
    ((Client.init {}).request (fun _ => Attempt.failure) 200).1 = none
    ∧ (Client.init {}).rawQuery (fun _ => Attempt.failure) "SHOW DATABASES" none none 200
        = JsonVal.obj [("results", JsonVal.arr [])]
    ∧ (Client.init {}).parsedQuery (fun _ => Attempt.failure) "SHOW DATABASES" none none 200 true
        = Except.ok [] :=
  exhausted_retries_behavior (Client.init {}) (fun _ => Attempt.failure)
    "SHOW DATABASES" none none 200 true (fun _ => rfl)

/-- C3 counterexample: with every transport attempt failing, the dispatched
request fails (outcome `None`), yet `write` still returns `True` — it reports
success although the dispatched request failed, and no `WriteError` exists. -/
theorem write_success_despite_failure_counterexample :
    ((Client.init {}).write (fun _ => Attempt.failure) ["m v=1"] [] 204).2.1 = true
    ∧ ((Client.init {}).write (fun _ => Attempt.failure) ["m v=1"] [] 204).2.2.1 = none :=
  ⟨rfl, rfl⟩

/-- C3 (amended): `write` unconditionally returns `True` for every sequence
of points and every transport behavior, whatever the dispatcher outcome —
the source executes `returnValue(True)` (`client.py` line 178) regardless of
what `request` produced, and no `WriteError` wrapping the failure exists. -/
theorem write_always_returns_true (c : Client) (t : Nat → Attempt)
    (data : List String) (params : List (String × Option String)) (expected : Nat) :
    (Client.write c t data params expected).2.1 = true := rfl

/-- C4 counterexample: a single `write` call changes the facade's `headers`
field — `headers = self._headers` at `client.py` line 159 aliases the
configuration dict and line 160 mutates it in place. -/
theorem write_mutates_headers_counterexample :
    ((Client.init {}).write (fun _ => Attempt.failure) [] [] 204).1.headers
      ≠ (Client.init {}).headers := by decide

/-- C4 (amended): every public operation except `write` (and the operations
dispatching through it) leaves the facade unchanged — `request`, `rawQuery`
and `parsedQuery` are pure functions of the client in this embedding because
the source assigns no attribute outside `__init__` — while `write` mutates
exactly the `headers` field, setting its Content-type entry to
application/octet-stream, and leaves every other field unchanged. -/
theorem write_frame_effect (c : Client) (t : Nat → Attempt)
    (data : List String) (params : List (String × Option String)) (expected : Nat) :
    (Client.write c t data params expected).1.host = c.host
    ∧ (Client.write c t data params expected).1.port = c.port
    ∧ (Client.write c t data params expected).1.username = c.username
    ∧ (Client.write c t data params expected).1.password = c.password
    ∧ (Client.write c t data params expected).1.database = c.database
    ∧ (Client.write c t data params expected).1.timeout = c.timeout
    ∧ (Client.write c t data params expected).1.retries = c.retries
    ∧ (Client.write c t data params expected).1.verify_ssl = c.verify_ssl
    ∧ (Client.write c t data params expected).1.use_udp = c.use_udp
    ∧ (Client.write c t data params expected).1.udp_port = c.udp_port
    ∧ (Client.write c t data params expected).1.scheme = c.scheme
    ∧ (Client.write c t data params expected).1.proxies = c.proxies
    ∧ (Client.write c t data params expected).1.baseurl = c.baseurl
    ∧ (Client.write c t data params expected).1.headers
        = dictSet c.headers "Content-type" "application/octet-stream" :=
  ⟨rfl, rfl, rfl, rfl, rfl, rfl, rfl, rfl, rfl, rfl, rfl, rfl, rfl, rfl⟩

/-- C5: with the retry count configured to 3 and a transport that raises on
the first two attempts and succeeds on the third with the expected (non
server-error) status, `request` returns the successful response and makes no
more than 3 transport attempts. -/
theorem request_retry_then_success (c : Client) (t : Nat → Attempt)
    (code : Nat) (body : JsonVal) (hr : c.retries = 3)
    (h0 : t 0 = Attempt.failure) (h1 : t 1 = Attempt.failure)
    (h2 : t 2 = Attempt.success ⟨code, body⟩)
    (hcode : ¬ (500 ≤ code ∧ code < 600)) :
    (Client.request c t code).1 = some ⟨code, body⟩
    ∧ (Client.request c t code).2 ≤ 3 := by
  have hn : c.retries.toNat = 3 := by rw [hr]; rfl
  have a2 : runAttempts t 2 1 = (some ⟨code, body⟩, 1) := by
    show runAttempts t 2 (0 + 1) = _
    exact runAttempts_success t 2 0 _ h2
  have a1 : runAttempts t 1 2 = (some ⟨code, body⟩, 2) := by
    show runAttempts t 1 (1 + 1) = _
    rw [runAttempts_failure t 1 1 h1, show ((1 : Nat) + 1) = 2 from rfl, a2]
  have a0 : runAttempts t 0 3 = (some ⟨code, body⟩, 3) := by
    show runAttempts t 0 (2 + 1) = _
    rw [runAttempts_failure t 0 2 h0, show ((0 : Nat) + 1) = 1 from rfl, a1]
  have hmain : Client.request c t code = (some ⟨code, body⟩, 3) := by
    simp [Client.request, hn, a0, classifyResponse, hcode]
  exact ⟨by rw [hmain], by rw [hmain]⟩

/-- Witness for C5: two failures, then a 200 response expected as 200. -/
theorem request_retry_then_success_witness :
    ((Client.init {}).request
        (fun i => if i = 2 then Attempt.success ⟨200, JsonVal.null⟩ else Attempt.failure)
        200).1 = some ⟨200, JsonVal.null⟩
    ∧ ((Client.init {}).request
        (fun i => if i = 2 then Attempt.success ⟨200, JsonVal.null⟩ else Attempt.failure)
        200).2 ≤ 3 :=
  request_retry_then_success (Client.init {})
    (fun i => if i = 2 then Attempt.success ⟨200, JsonVal.null⟩ else Attempt.failure)
    200 JsonVal.null rfl rfl rfl rfl (by decide)

/-- C6 counterexample: when `expected_response_code` is itself a server-error
code, a response matching it exactly is still routed through the 5xx branch
(`client.py` line 128 is checked before the equality at line 132) and the
caller gets `None`, not the raw response. -/
theorem request_expected_5xx_counterexample :
    ((Client.init {}).request (fun _ => Attempt.success ⟨500, JsonVal.null⟩) 500).1
      = none := rfl

/-- C6 (amended): for every HTTP response whose status code equals the
`expected_response_code` argument and is not in [500,600), `request` returns
that raw response without error; an expected code inside [500,600) is
instead swallowed by the server-error branch. -/
theorem request_returns_match (c : Client) (t : Nat → Attempt)
    (code : Nat) (body : JsonVal)
    (h0 : t 0 = Attempt.success ⟨code, body⟩) (hr : 1 ≤ c.retries)
    (hcode : ¬ (500 ≤ code ∧ code < 600)) :
    (Client.request c t code).1 = some ⟨code, body⟩ := by
  rw [request_first_delivered c t ⟨code, body⟩ code h0 hr]
  simp [classifyResponse, hcode]

/-- Witness for C6 (amended) at the write-path default status 204. -/
theorem request_returns_match_witness :
    ((Client.init {}).request (fun _ => Attempt.success ⟨204, JsonVal.null⟩) 204).1
      = some ⟨204, JsonVal.null⟩ :=
  request_returns_match (Client.init {})
    (fun _ => Attempt.success ⟨204, JsonVal.null⟩) 204 JsonVal.null
    rfl (by decide) (by decide)

/-- C7: for every JSON query response body whose `results` array is empty or
absent, `parsedQuery` returns the empty `ResultSet` sequence and no error. -/
theorem parsedQuery_empty_results (c : Client) (t : Nat → Attempt)
    (fields : List (String × JsonVal)) (q : String) (db ep : Option String)
    (re : Bool) (hr : 1 ≤ c.retries)
    (h0 : t 0 = Attempt.success ⟨200, JsonVal.obj fields⟩)
    (hres : lookupField fields "results" = none
      ∨ lookupField fields "results" = some (JsonVal.arr [])) :
    Client.parsedQuery c t q db ep 200 re = Except.ok [] := by
  have hreq := request_first_delivered c t ⟨200, JsonVal.obj fields⟩ 200 h0 hr
  have hclass : classifyResponse 200 (some ⟨200, JsonVal.obj fields⟩)
      = some ⟨200, JsonVal.obj fields⟩ := by
    simp [classifyResponse]
  have hraw : Client.rawQuery c t q db ep 200 = JsonVal.obj fields := by
    simp [Client.rawQuery, hreq, hclass]
  have hgr : getResults (JsonVal.obj fields) = [] := by
    rcases hres with h | h <;> simp [getResults, h]
  simp [Client.parsedQuery, hraw, hgr]
  rfl

/-- Witness for C7 at a body with no `results` key. -/
theorem parsedQuery_empty_results_witness :
    (Client.init {}).parsedQuery
      (fun _ => Attempt.success ⟨200, JsonVal.obj []⟩)
      "SELECT * FROM test1" none none 200 true = Except.ok [] :=
  parsedQuery_empty_results (Client.init {})
    (fun _ => Attempt.success ⟨200, JsonVal.obj []⟩) []
    "SELECT * FROM test1" none none true (by decide) rfl (Or.inl rfl)

/-- C8: identifiers embedded into management statements are wrapped in double
quotes with internal double quotes escaped: a database name with a space
yields CREATE DATABASE "my db", a name with an embedded quote has it escaped,
and the retention-policy statement quotes both its identifiers. -/
theorem create_database_quoting :
    create_database_statement "my db" = "CREATE DATABASE \"my db\""
    ∧ create_database_statement "my\"db" = "CREATE DATABASE \"my\\\"db\""
    ∧ create_retention_policy_statement (Client.init {}) "pol icy" "1h" "3"
        (some "my db") false
      = "CREATE RETENTION POLICY \"pol icy\" ON \"my db\" DURATION 1h REPLICATION 3" :=
  ⟨rfl, rfl, rfl⟩

theorem effectiveRetries_pos (o : Option Int) : 1 ≤ effectiveRetries o := by
  cases o with
  | none => decide
  | some v =>
    simp only [effectiveRetries, Option.getD_some]
    split <;> omega

theorem effectiveRetries_some_ge (v : Int) (h : 1 ≤ v) :
    effectiveRetries (some v) = v := by
  simp only [effectiveRetries, Option.getD_some]
  rw [if_neg (by omega)]

theorem effectiveRetries_some_lt (v : Int) (h : v < 1) :
    effectiveRetries (some v) = 1 := by
  simp only [effectiveRetries, Option.getD_some]
  rw [if_pos h]

/-- C9: the effective retry count is the configured value, defaulting to 3
when the key is absent, is never below 1, and any configured value below 1
is raised to 1. -/
theorem init_retries_spec (config : Config) :
    (config.retries = none → (Client.init config).retries = 3)
    ∧ 1 ≤ (Client.init config).retries
    ∧ (∀ v : Int, config.retries = some v → 1 ≤ v → (Client.init config).retries = v)
    ∧ (∀ v : Int, config.retries = some v → v < 1 → (Client.init config).retries = 1) := by
  refine ⟨fun h => ?_, ?_, fun v hv hge => ?_, fun v hv hlt => ?_⟩
  · show effectiveRetries config.retries = 3
    rw [h]
    rfl
  · show 1 ≤ effectiveRetries config.retries
    exact effectiveRetries_pos _
  · show effectiveRetries config.retries = v
    rw [hv]
    exact effectiveRetries_some_ge v hge
  · show effectiveRetries config.retries = 1
    rw [hv]
    exact effectiveRetries_some_lt v hlt

/-- Witness for C9: an absent key gives 3, a configured 0 is raised to 1, a
configured 7 is kept. -/
theorem init_retries_spec_witness :
    (Client.init {}).retries = 3
    ∧ (Client.init { retries := some 0 }).retries = 1
    ∧ (Client.init { retries := some 7 }).retries = 7 :=
  ⟨(init_retries_spec {}).1 rfl,
   (init_retries_spec { retries := some 0 }).2.2.2 0 rfl (by decide),
   (init_retries_spec { retries := some 7 }).2.2.1 7 rfl (by decide)⟩

/-- C10 counterexample: a batched call to `write_points` with an invalid
time precision does not fail with the `ValueError` — the batched branch at
`client.py` lines 220-222 raises `NameError` (undefined name `iterable`)
before the precision check at line 247 is ever reached. -/
theorem write_points_batched_counterexample :
    (Client.init {}).write_points (fun _ => Attempt.failure) [] (some "x") none none (some 5)
      = (Client.init {}, Except.error nameErrorMsg, 0)
    ∧ nameErrorMsg ≠ invalidPrecisionMsg :=
  ⟨rfl, by decide⟩

/-- C10 (amended): a call to `_write_points`, or a non-batched call to
`write_points` (`batch_size` absent, zero or negative), with a time precision
outside n, u, ms, s, m, h, None fails with the `ValueError` before any
request is dispatched (zero transport attempts) and leaves the client state
unchanged; a batched call (`batch_size` present and positive) instead raises
`NameError` at `client.py` line 222 before the precision check is reached,
likewise dispatching nothing and changing no state. -/
theorem write_points_invalid_precision_amended (c : Client) (t : Nat → Attempt)
    (points : List String) (tp : Option String) (db rp : Option String)
    (batch_size : Option Int) (h : tp ∉ valid_precisions) :
    Client.writePointsChecked c t points tp db rp
      = (c, Except.error invalidPrecisionMsg, 0)
    ∧ ((batch_size = none ∨ ∃ b, batch_size = some b ∧ b ≤ 0) →
        Client.write_points c t points tp db rp batch_size
          = (c, Except.error invalidPrecisionMsg, 0))
    ∧ (∀ b, batch_size = some b → 0 < b →
        Client.write_points c t points tp db rp batch_size
          = (c, Except.error nameErrorMsg, 0)) := by
  have h1 : Client.writePointsChecked c t points tp db rp
      = (c, Except.error invalidPrecisionMsg, 0) := by
    simp [Client.writePointsChecked, h]
  refine ⟨h1, ?_, ?_⟩
  · rintro (hb | ⟨b, hb, hle⟩)
    · rw [hb]
      exact h1
    · rw [hb]
      simp only [Client.write_points]
      rw [if_neg (by omega)]
      exact h1
  · intro b hb hpos
    rw [hb]
    simp only [Client.write_points]
    rw [if_pos hpos]

/-- Witness for C10 (amended) at the invalid precision some x, exercising an
absent batch size, a non-positive batch size and a positive batch size. -/
theorem write_points_invalid_precision_amended_witness :
    (Client.init {}).writePointsChecked (fun _ => Attempt.failure) [] (some "x") none none
      = (Client.init {}, Except.error invalidPrecisionMsg, 0)
    ∧ (Client.init {}).write_points (fun _ => Attempt.failure) [] (some "x") none none none
      = (Client.init {}, Except.error invalidPrecisionMsg, 0)
    ∧ (Client.init {}).write_points (fun _ => Attempt.failure) [] (some "x") none none (some 0)
      = (Client.init {}, Except.error invalidPrecisionMsg, 0)
    ∧ (Client.init {}).write_points (fun _ => Attempt.failure) [] (some "x") none none (some 5)
      = (Client.init {}, Except.error nameErrorMsg, 0) :=
  ⟨(write_points_invalid_precision_amended (Client.init {}) (fun _ => Attempt.failure)
      [] (some "x") none none none (by decide)).1,
   (write_points_invalid_precision_amended (Client.init {}) (fun _ => Attempt.failure)
      [] (some "x") none none none (by decide)).2.1 (Or.inl rfl),
   (write_points_invalid_precision_amended (Client.init {}) (fun _ => Attempt.failure)
      [] (some "x") none none (some 0) (by decide)).2.1
        (Or.inr ⟨0, rfl, by decide⟩),
   (write_points_invalid_precision_amended (Client.init {}) (fun _ => Attempt.failure)
      [] (some "x") none none (some 5) (by decide)).2.2 5 rfl (by decide)⟩

end InfluxDB
